import Mathlib

/-!
Verification development for `app.py` of the `arretes_secheresse` repository:
a Streamlit page that fetches drought-restriction zones, filters them to
surface-water zones (type "SUP"), reads a local itinerary layer (memoized),
reprojects both layers, and composes a folium map with a colored zone layer,
a legend, a title and a layer control.

The shallow embedding models a GeoDataFrame as a coordinate-reference-system
string plus a list of features; machine floats are modelled as rationals.
-/

namespace ArretesSecheresse

/-- One zone record of the fetched layer: its `type` attribute, its
`niveauGravite` attribute, its polygon geometry (exterior-ring coordinates,
as (x, y) = (longitude, latitude)) and the remaining attribute columns. -/
structure ZoneFeature where
  type : String
  niveauGravite : String
  geometry : List (ℚ × ℚ)
  otherAttrs : List (String × String)
  deriving DecidableEq

/-- The zone GeoDataFrame: a declared coordinate reference system and the rows. -/
structure ZonesGdf where
  crs : String
  features : List ZoneFeature
  deriving DecidableEq

/-- One itinerary record: its line geometry as a list of (x, y) points. -/
structure ItinFeature where
  points : List (ℚ × ℚ)
  deriving DecidableEq

/-- The itinerary GeoDataFrame read from the local file. -/
structure ItinGdf where
  crs : String
  features : List ItinFeature
  deriving DecidableEq

/-- What `gpd.read_file` does to the fetched bytes: either it raises (the
payload is not a readable geospatial file) or it yields a GeoDataFrame.
The payload is modelled by that outcome. -/
inductive Payload where
  | malformed
  | wellFormed (gdf : ZonesGdf)
  deriving DecidableEq

/-- Outcome of `requests.get` on the zone URL: the request may raise (network
unreachable) or return a response carrying an HTTP status code and a body.
`app.py` never consults the status code. -/
inductive FetchOutcome where
  | netError
  | response (status : Nat) (body : Payload)
  deriving DecidableEq

/-- The distinct exceptions that can escape `get_zones_secheresse`: a
`requests` network exception, or the reader's exception on a body that is
not a readable geospatial file. -/
inductive FetchError where
  | network
  | readFileError
  deriving DecidableEq, BEq

/-- Embedding of `get_zones_secheresse` (app.py lines 29-49): fetch the
fixed URL, read the body with geopandas, and keep only the rows whose
`type` column equals "SUP". There is no try/except and no status check:
a network failure escapes as the requests exception, an unreadable body
escapes as the reader's exception, and a response body is read whatever
its HTTP status. -/
def get_zones_secheresse (fetch : FetchOutcome) : Except FetchError ZonesGdf :=
  match fetch with
  | FetchOutcome.netError => Except.error FetchError.network
  | FetchOutcome.response _status body =>
    match body with
    | Payload.malformed => Except.error FetchError.readFileError
    | Payload.wellFormed zones_arretes =>
      Except.ok ⟨zones_arretes.crs, zones_arretes.features.filter (fun f => f.type == "SUP")⟩

/-- The Streamlit session state backing `@st.cache_data`: the memo table
keyed by the file-path argument, plus an instrumentation counter of actual
file-system reads. -/
structure CacheState where
  cache : List (String × ItinGdf)
  readCount : Nat
  deriving DecidableEq

/-- Embedding of `lire_geopandas` (app.py lines 53-65) together with the
`@st.cache_data` decorator it carries: on a cache hit the memoized parse
is returned and the file system is not touched; on a miss the file is read
(`fsRead` models `gpd.read_file` on the local file) and memoized. -/
def lire_geopandas (fsRead : String → ItinGdf) (fic_couche : String) (s : CacheState) :
    ItinGdf × CacheState :=
  match s.cache.lookup fic_couche with
  | some gdf => (gdf, s)
  | none => (fsRead fic_couche, ⟨(fic_couche, fsRead fic_couche) :: s.cache, s.readCount + 1⟩)

/-- The fixed severity levels, in the order written in `construire_carte`. -/
def niveaux : List String := ["vigilance", "alerte", "alerte renforcée", "crise"]

/-- The fixed color codes, in the same order as `niveaux`. -/
def couleurs : List String := ["#ffeda0", "#feb24c", "#fc4e2a", "#b10026"]

/-- Embedding of pandas `Series.map(dict(zip(niveaux, couleurs)))` applied to
one `niveauGravite` value: dictionary lookup, yielding the missing value
(`none`, pandas NaN) on an unmapped key instead of raising. -/
def couleurDe (v : String) : Option String :=
  (niveaux.zip couleurs).lookup v

/-- One row of the zone layer as styled by `construire_carte`: the original
feature plus the derived `couleur` column. -/
structure StyledZone where
  feature : ZoneFeature
  couleur : Option String
  deriving DecidableEq

/-- The legend drawn by `_categorical_legend`: a title and the label/color
pairs, in display order. -/
structure LegendSpec where
  title : String
  entries : List (String × String)
  deriving DecidableEq

/-- Embedding of `_categorical_legend` (app.py lines 69-186): the HTML body
lists one entry per (label, color) pair of `zip(categories, colors)`, in
that order, under the given title. -/
def _categorical_legend (title : String) (categories colors : List String) : LegendSpec :=
  ⟨title, categories.zip colors⟩

/-- The itinerary overlay added by `folium.GeoJson` in `construire_carte`:
the GeoDataFrame it was given, its display name, and the fixed style. -/
structure ItineraryLayer where
  name : String
  gdf : ItinGdf
  styleColor : String
  styleWeight : Nat
  deriving DecidableEq

/-- The rectangle passed to `folium.Map.fit_bounds`: south-west and
north-east corners, each as (latitude, longitude). -/
structure FitBounds where
  sw : ℚ × ℚ
  ne : ℚ × ℚ
  deriving DecidableEq

/-- `itineraire.total_bounds` as numpy computes it: minx, miny, maxx, maxy
over every coordinate of every geometry. -/
structure Bounds4 where
  minx : ℚ
  miny : ℚ
  maxx : ℚ
  maxy : ℚ
  deriving DecidableEq

/-- Every coordinate pair of the itinerary layer, in order. -/
def allPoints (g : ItinGdf) : List (ℚ × ℚ) :=
  (g.features.map ItinFeature.points).flatten

/-- `total_bounds` of the itinerary layer (zeros for an empty layer, where
numpy would produce NaNs). -/
def total_bounds (g : ItinGdf) : Bounds4 :=
  match allPoints g with
  | [] => ⟨0, 0, 0, 0⟩
  | p :: ps =>
    ⟨ps.foldl (fun b q => min b q.1) p.1,
     ps.foldl (fun b q => min b q.2) p.2,
     ps.foldl (fun b q => max b q.1) p.1,
     ps.foldl (fun b q => max b q.2) p.2⟩

/-- A calendar date, standing for `dt.date.today()`. -/
structure Date where
  day : Nat
  month : Nat
  year : Nat
  deriving DecidableEq

/-- Two-digit zero padding, as strftime `%d` and `%m` produce. -/
def pad2 (n : Nat) : String :=
  if n < 10 then "0" ++ toString n else toString n

/-- `strftime("%d/%m/%Y")` on a date. -/
def strftime_dmY (d : Date) : String :=
  pad2 d.day ++ "/" ++ pad2 d.month ++ "/" ++ toString d.year

/-- The literal text of the title f-string before the formatted date. -/
def titleHead : String :=
  "\n      <h3 align=\"center\" style=\"font-size:20px\"><b>Zones d'arrêtés sécheresse</b>\n      en date du "

/-- The literal text of the title f-string after the formatted date. -/
def titleTail : String := "</h3>\n               "

/-- The folium map artifact built by `construire_carte`: initial location and
tiles, the fitted bounds, the styled zone layer with the explore styling
parameters, the injected legend, the itinerary overlay, the title HTML and
the layer control. -/
structure Carte where
  location : ℚ × ℚ
  tiles : String
  fitted : FitBounds
  zoneLayer : List StyledZone
  zoneLayerName : String
  zoneColumn : String
  zoneCategories : List String
  zoneCmap : List String
  legend : LegendSpec
  itineraryLayer : ItineraryLayer
  titleHtml : String
  layerControl : Bool
  deriving DecidableEq

/-- Embedding of `construire_carte` (app.py lines 190-259). The local copy
`czones_arrete` gains the derived `couleur` column via `couleurDe`; the map
is centered on the fixed point then fitted to the itinerary total bounds
(`[[miny, minx], [maxy, maxx]]`); the zone layer is styled categorically on
`niveauGravite` with the fixed `niveaux`/`couleurs` lists; the legend, the
itinerary overlay with fixed blue style, the dated title and the layer
control are added. -/
def construire_carte (itineraire : ItinGdf) (zones_arrete : ZonesGdf) (today : Date) : Carte where
  location := (46463/1000, 2661/1000)
  tiles := "OpenStreetMap"
  fitted :=
    ⟨((total_bounds itineraire).miny, (total_bounds itineraire).minx),
     ((total_bounds itineraire).maxy, (total_bounds itineraire).maxx)⟩
  zoneLayer := zones_arrete.features.map (fun f => ⟨f, couleurDe f.niveauGravite⟩)
  zoneLayerName := "Zones d'arrêtés sécheresse"
  zoneColumn := "niveauGravite"
  zoneCategories := niveaux
  zoneCmap := couleurs
  legend := _categorical_legend "Niveau de gravité" niveaux couleurs
  itineraryLayer := ⟨"Itinéraire COP", itineraire, "#0000ff", 2⟩
  titleHtml := titleHead ++ strftime_dmY today ++ titleTail
  layerControl := true

/-- Modelled from the spec: `GeoDataFrame.to_crs` (geopandas/pyproj) is not
part of this repository's sources. Reprojecting into the layer's own
reference system leaves the layer unchanged; otherwise every coordinate is
transformed and the declared reference system is replaced by the target. -/
def to_crs (transform : String → String → (ℚ × ℚ) → (ℚ × ℚ)) (g : ItinGdf) (target : String) :
    ItinGdf :=
  if g.crs = target then g
  else ⟨target, g.features.map (fun f => ⟨f.points.map (transform g.crs target)⟩)⟩

/-! Concrete sample data used by the witness theorems. -/

/-- A surface-water zone row. -/
def zoneSup : ZoneFeature := ⟨"SUP", "alerte", [(2, 45), (3, 46)], [("nom", "zone A")]⟩

/-- A groundwater zone row, to be filtered out. -/
def zoneGen : ZoneFeature := ⟨"GEN", "crise", [(3, 46), (4, 47)], [("nom", "zone B")]⟩

/-- A sample fetched zone layer holding one SUP and one non-SUP row. -/
def zonesEx : ZonesGdf := ⟨"EPSG:2154", [zoneSup, zoneGen]⟩

/-- A sample itinerary layer with two line features. -/
def itinEx : ItinGdf := ⟨"EPSG:4326", [⟨[(2, 45), (3, 46)]⟩, ⟨[(5/2, 91/2)]⟩]⟩

/-- A sample date. -/
def dateEx : Date := ⟨30, 4, 2025⟩

/-- A sample nontrivial coordinate transform (coordinate swap). -/
def swapXY : String → String → (ℚ × ℚ) → (ℚ × ℚ) := fun _ _ p => (p.2, p.1)

/-! Helper lemmas about folded minima and maxima, for `total_bounds`. -/

theorem foldl_min_le {α : Type} (f : α → ℚ) (l : List α) (a : ℚ) :
    l.foldl (fun b q => min b (f q)) a ≤ a ∧
      ∀ p ∈ l, l.foldl (fun b q => min b (f q)) a ≤ f p := by
  induction l generalizing a with
  | nil =>
    refine ⟨le_refl a, ?_⟩
    intro p hp
    cases hp
  | cons x xs ih =>
    refine ⟨le_trans (ih (min a (f x))).1 (min_le_left a (f x)), ?_⟩
    intro p hp
    rcases List.mem_cons.mp hp with h | h
    · rw [h]
      exact le_trans (ih (min a (f x))).1 (min_le_right a (f x))
    · exact (ih (min a (f x))).2 p h

theorem le_foldl_max {α : Type} (f : α → ℚ) (l : List α) (a : ℚ) :
    a ≤ l.foldl (fun b q => max b (f q)) a ∧
      ∀ p ∈ l, f p ≤ l.foldl (fun b q => max b (f q)) a := by
  induction l generalizing a with
  | nil =>
    refine ⟨le_refl a, ?_⟩
    intro p hp
    cases hp
  | cons x xs ih =>
    refine ⟨le_trans (le_max_left a (f x)) (ih (max a (f x))).1, ?_⟩
    intro p hp
    rcases List.mem_cons.mp hp with h | h
    · rw [h]
      exact le_trans (le_max_right a (f x)) (ih (max a (f x))).1
    · exact (ih (max a (f x))).2 p h

/-- Every coordinate of the itinerary lies inside its `total_bounds`. -/
theorem total_bounds_contains (g : ItinGdf) (p : ℚ × ℚ) (hp : p ∈ allPoints g) :
    (total_bounds g).minx ≤ p.1 ∧ p.1 ≤ (total_bounds g).maxx ∧
      (total_bounds g).miny ≤ p.2 ∧ p.2 ≤ (total_bounds g).maxy := by
  rcases hq : allPoints g with _ | ⟨q, qs⟩
  · rw [hq] at hp
    cases hp
  · rw [hq] at hp
    simp only [total_bounds, hq]
    rcases List.mem_cons.mp hp with h | h
    · rw [h]
      exact ⟨(foldl_min_le Prod.fst qs q.1).1, (le_foldl_max Prod.fst qs q.1).1,
             (foldl_min_le Prod.snd qs q.2).1, (le_foldl_max Prod.snd qs q.2).1⟩
    · exact ⟨(foldl_min_le Prod.fst qs q.1).2 p h, (le_foldl_max Prod.fst qs q.1).2 p h,
             (foldl_min_le Prod.snd qs q.2).2 p h, (le_foldl_max Prod.snd qs q.2).2 p h⟩

/-- C1: after the filter in `get_zones_secheresse`, every retained feature's
`type` attribute equals "SUP" exactly; no feature with a different `type`
is present in the result. -/
theorem get_zones_secheresse_type_SUP (fetch : FetchOutcome) (out : ZonesGdf)
    (h : get_zones_secheresse fetch = Except.ok out) :
    ∀ f ∈ out.features, f.type = "SUP" := by
  intro f hf
  cases fetch with
  | netError => simp [get_zones_secheresse] at h
  | response status body =>
    cases body with
    | malformed => simp [get_zones_secheresse] at h
    | wellFormed gdf =>
      simp only [get_zones_secheresse, Except.ok.injEq] at h
      rw [← h] at hf
      exact eq_of_beq (List.mem_filter.mp hf).2

/-- Witness for C1: the concrete fetched collection `zonesEx` (one SUP row,
one GEN row) filters to exactly the SUP row. -/
theorem get_zones_secheresse_type_SUP_witness : zoneSup.type = "SUP" :=
  get_zones_secheresse_type_SUP (FetchOutcome.response 200 (Payload.wellFormed zonesEx))
    (ZonesGdf.mk "EPSG:2154" [zoneSup]) rfl zoneSup (List.mem_singleton.mpr rfl)

/-- C2: the zone layer built by `construire_carte` derives each row's
`couleur` by the fixed table; the four known severity levels map exactly to
their fixed colors and any other level maps to the missing value (`none`)
rather than raising. -/
theorem couleur_table (itineraire : ItinGdf) (zones : ZonesGdf) (today : Date) :
    (construire_carte itineraire zones today).zoneLayer
      = zones.features.map (fun f => ⟨f, couleurDe f.niveauGravite⟩) ∧
    couleurDe "vigilance" = some "#ffeda0" ∧
    couleurDe "alerte" = some "#feb24c" ∧
    couleurDe "alerte renforcée" = some "#fc4e2a" ∧
    couleurDe "crise" = some "#b10026" ∧
    ∀ v, v ∉ niveaux → couleurDe v = none := by
  refine ⟨rfl, rfl, rfl, rfl, rfl, ?_⟩
  intro v hv
  simp only [niveaux, List.mem_cons, List.not_mem_nil, or_false, not_or] at hv
  obtain ⟨h1, h2, h3, h4⟩ := hv
  have b1 : (v == "vigilance") = false := beq_eq_false_iff_ne.mpr h1
  have b2 : (v == "alerte") = false := beq_eq_false_iff_ne.mpr h2
  have b3 : (v == "alerte renforcée") = false := beq_eq_false_iff_ne.mpr h3
  have b4 : (v == "crise") = false := beq_eq_false_iff_ne.mpr h4
  simp [couleurDe, niveaux, couleurs, List.lookup, b1, b2, b3, b4]

/-- Witness for C2: an unmapped severity level at a concrete input. -/
theorem couleur_table_witness : couleurDe "inconnu" = none :=
  (couleur_table itinEx zonesEx dateEx).2.2.2.2.2 "inconnu" (by decide)

/-- C3 counterexample: a network failure and an unreadable payload escape
`get_zones_secheresse` as two different exceptions, so the failure
conditions do not surface as one single unified "data unavailable" error. -/
theorem fetch_errors_not_unified :
    get_zones_secheresse FetchOutcome.netError = Except.error FetchError.network ∧
    get_zones_secheresse (FetchOutcome.response 404 Payload.malformed)
      = Except.error FetchError.readFileError ∧
    (FetchError.network == FetchError.readFileError) = false :=
  ⟨rfl, rfl, rfl⟩

/-- C3 amended: every failure escapes to the caller as an error, but not as
one unified error: a network failure raises the requests exception, an
unreadable body raises the reader's exception, and the HTTP status is never
checked, so a non-2xx response whose body still reads as a geospatial file
succeeds. -/
theorem fetch_failure_surfaces :
    get_zones_secheresse FetchOutcome.netError = Except.error FetchError.network ∧
    (∀ status : Nat, get_zones_secheresse (FetchOutcome.response status Payload.malformed)
      = Except.error FetchError.readFileError) ∧
    (∀ (status : Nat) (gdf : ZonesGdf),
      get_zones_secheresse (FetchOutcome.response status (Payload.wellFormed gdf))
        = Except.ok ⟨gdf.crs, gdf.features.filter (fun f => f.type == "SUP")⟩) :=
  ⟨rfl, fun _ => rfl, fun _ _ => rfl⟩

/-- C4: a second `lire_geopandas` call with the same path returns the same
parsed layer and performs no second file-system read (the read counter is
unchanged). -/
theorem lire_geopandas_memoized (fsRead : String → ItinGdf) (fic : String) (s : CacheState) :
    (lire_geopandas fsRead fic (lire_geopandas fsRead fic s).2).1
      = (lire_geopandas fsRead fic s).1 ∧
    (lire_geopandas fsRead fic (lire_geopandas fsRead fic s).2).2.readCount
      = (lire_geopandas fsRead fic s).2.readCount := by
  cases h : s.cache.lookup fic with
  | some gdf => simp [lire_geopandas, h]
  | none => simp [lire_geopandas, h, List.lookup]

/-- C5: the extent fitted by `construire_carte` contains the itinerary
layer's bounding box (minx, miny, maxx, maxy), and hence every coordinate
of the itinerary. -/
theorem fit_bounds_contains_itineraire (itineraire : ItinGdf) (zones : ZonesGdf) (today : Date)
    (_h : allPoints itineraire ≠ []) :
    ((construire_carte itineraire zones today).fitted.sw.2 ≤ (total_bounds itineraire).minx ∧
     (total_bounds itineraire).maxx ≤ (construire_carte itineraire zones today).fitted.ne.2 ∧
     (construire_carte itineraire zones today).fitted.sw.1 ≤ (total_bounds itineraire).miny ∧
     (total_bounds itineraire).maxy ≤ (construire_carte itineraire zones today).fitted.ne.1) ∧
    ∀ p ∈ allPoints itineraire,
      (construire_carte itineraire zones today).fitted.sw.2 ≤ p.1 ∧
      p.1 ≤ (construire_carte itineraire zones today).fitted.ne.2 ∧
      (construire_carte itineraire zones today).fitted.sw.1 ≤ p.2 ∧
      p.2 ≤ (construire_carte itineraire zones today).fitted.ne.1 := by
  constructor
  · exact ⟨le_refl _, le_refl _, le_refl _, le_refl _⟩
  · intro p hp
    exact total_bounds_contains itineraire p hp

/-- Witness for C5 at a concrete nonempty itinerary and one of its points. -/
theorem fit_bounds_contains_itineraire_witness :
    (construire_carte itinEx zonesEx dateEx).fitted.sw.2 ≤ ((2 : ℚ), (45 : ℚ)).1 :=
  ((fit_bounds_contains_itineraire itinEx zonesEx dateEx (by decide)).2
    ((2 : ℚ), (45 : ℚ)) (by decide)).1

/-- C6: with an empty zone collection, `construire_carte` still succeeds
(it is total), its zone layer holds zero features, and its itinerary layer
is identical to the one obtained with any zone collection. -/
theorem carte_zones_vides (itineraire : ItinGdf) (vides zones : ZonesGdf) (today : Date)
    (h : vides.features = []) :
    (construire_carte itineraire vides today).zoneLayer = [] ∧
    (construire_carte itineraire vides today).itineraryLayer
      = (construire_carte itineraire zones today).itineraryLayer := by
  constructor
  · simp [construire_carte, h]
  · rfl

/-- Witness for C6 at a concrete empty collection. -/
theorem carte_zones_vides_witness :
    (construire_carte itinEx (ZonesGdf.mk "EPSG:4326" []) dateEx).zoneLayer = [] ∧
    (construire_carte itinEx (ZonesGdf.mk "EPSG:4326" []) dateEx).itineraryLayer
      = (construire_carte itinEx zonesEx dateEx).itineraryLayer :=
  carte_zones_vides itinEx (ZonesGdf.mk "EPSG:4326" []) zonesEx dateEx rfl

/-- C7: map composition leaves the itinerary layer exactly as given, and
the zone rows are carried unchanged except for gaining the one derived
`couleur` column computed from `niveauGravite` by the fixed table. -/
theorem pas_de_mutation (itineraire : ItinGdf) (zones : ZonesGdf) (today : Date) :
    (construire_carte itineraire zones today).itineraryLayer.gdf = itineraire ∧
    (construire_carte itineraire zones today).zoneLayer
      = zones.features.map (fun f => StyledZone.mk f (couleurDe f.niveauGravite)) :=
  ⟨rfl, rfl⟩

/-- C8: reprojecting a layer already expressed in reference system X to X
is the identity, and reprojecting to X twice equals reprojecting once. -/
theorem to_crs_idempotent (transform : String → String → (ℚ × ℚ) → (ℚ × ℚ))
    (X : String) (g : ItinGdf) (h : g.crs = X) :
    to_crs transform g X = g ∧
    to_crs transform (to_crs transform g X) X = to_crs transform g X := by
  have h1 : to_crs transform g X = g := by
    simp [to_crs, h]
  refine ⟨h1, ?_⟩
  rw [h1]
  exact h1

/-- Witness for C8 at a concrete layer already in EPSG:4326, with a
nontrivial transform. -/
theorem to_crs_idempotent_witness :
    to_crs swapXY itinEx "EPSG:4326" = itinEx ∧
    to_crs swapXY (to_crs swapXY itinEx "EPSG:4326") "EPSG:4326"
      = to_crs swapXY itinEx "EPSG:4326" :=
  to_crs_idempotent swapXY "EPSG:4326" itinEx rfl

/-- C9: the title overlay built by `construire_carte` contains the literal
text "Zones d'arrêtés sécheresse" followed (after intervening markup) by
the current date formatted day/month/year. -/
theorem titre_date (itineraire : ItinGdf) (zones : ZonesGdf) (today : Date) :
    ∃ s1 s2 s3, (construire_carte itineraire zones today).titleHtml
      = s1 ++ "Zones d'arrêtés sécheresse" ++ s2 ++ strftime_dmY today ++ s3 := by
  refine ⟨"\n      <h3 align=\"center\" style=\"font-size:20px\"><b>",
          "</b>\n      en date du ", titleTail, ?_⟩
  show titleHead ++ strftime_dmY today ++ titleTail = _
  have hh : "\n      <h3 align=\"center\" style=\"font-size:20px\"><b>"
      ++ "Zones d'arrêtés sécheresse" ++ "</b>\n      en date du " = titleHead := rfl
  rw [← hh]

/-- C10: the legend shows exactly the four severity labels, in their fixed
order, each with its fixed color, taken from the same constant lists that
style the zone layer, independently of the input data. -/
theorem legende_fixe (itineraire : ItinGdf) (zones : ZonesGdf) (today : Date) :
    (construire_carte itineraire zones today).legend.title = "Niveau de gravité" ∧
    (construire_carte itineraire zones today).legend.entries
      = (construire_carte itineraire zones today).zoneCategories.zip
          ((construire_carte itineraire zones today).zoneCmap) ∧
    (construire_carte itineraire zones today).legend.entries
      = [("vigilance", "#ffeda0"), ("alerte", "#feb24c"),
         ("alerte renforcée", "#fc4e2a"), ("crise", "#b10026")] :=
  ⟨rfl, rfl, rfl⟩

end ArretesSecheresse
